import Mathlib

/-!
Verification of the countdown-timer core logic of an STM32F4 OLED timer
program (`src/main.rs`).  The shared state is two `u16` cells `ELAPSED`
and `SET` guarded by a critical-section mutex; three interrupt handlers
(`TIM2` 1 Hz tick, `EXTI0` button reset, `TIM3` ADC sampler) mutate it,
and the foreground `main` loop renders it and runs a blink finale when
the countdown reaches zero.

Machine integers are modelled as `Nat` with explicit `% 65536` (for
`u16` wrapping, as in a release build) and `% 256` (for `as u8` casts)
at the points where the Rust code can overflow or truncate.
-/

namespace TimeCounter

/-- `2^16`, the modulus of `u16` arithmetic. -/
def U16_MOD : Nat := 65536

/-- `2^8`, the modulus of `u8` truncation (`as u8`). -/
def U8_MOD : Nat := 256

/-- The shared state: the two global cells `ELAPSED` and `SET` of
`main.rs` (both `u16`).  `set` is the configured countdown length, named
`target` in the design documents; we keep the source's name `SET` as the
field name `set`. -/
structure CountdownState where
  elapsed : Nat
  set : Nat
  deriving Repr, DecidableEq

/-- The `TIM2` interrupt handler (1 Hz tick), `main.rs` lines 253-269:
`ELAPSED.borrow(cs).set(ELAPSED.borrow(cs).get() - 1)`.  The decrement is
unguarded; in u16 wrapping arithmetic `e - 1` is `(e + 65535) % 65536`. -/
def TIM2 (s : CountdownState) : CountdownState :=
  { s with elapsed := (s.elapsed + 65535) % U16_MOD }

/-- The `EXTI0` interrupt handler (button falling edge), `main.rs` lines
274-297: `let timeset = SET.borrow(cs).get(); ELAPSED.borrow(cs).replace(timeset)`. -/
def EXTI0 (s : CountdownState) : CountdownState :=
  { s with elapsed := s.set }

/-- The `TIM3` interrupt handler (10 Hz ADC sampler), `main.rs` lines
305-327: reads a sample from the ADC (6-bit resolution, so `0..=63` from
the hardware) and performs `SET.borrow(cs).replace((sample>>1)*60)`.
The sample is an input to the model since the ADC is external. -/
def TIM3 (sample : Nat) (s : CountdownState) : CountdownState :=
  { s with set := ((sample >>> 1) * 60) % U16_MOD }

/-- `time_digits` from `main.rs` lines 346-353:
`hours = time / 3600; minutes = time / 60; seconds = time % 60`, each
cast with `as u8` (truncation mod 256).  Note the missing `% 60` on
`minutes` and `% 24` on `hours`. -/
def time_digits (time : Nat) : Nat × Nat × Nat :=
  (time / 3600 % U8_MOD, time / 60 % U8_MOD, time % 60 % U8_MOD)

/-- The `while` condition of the render loop, `main.rs` line 192:
`free(|cs| ELAPSED.borrow(cs).get()) > 0`. -/
def renderLoopCondition (s : CountdownState) : Bool :=
  decide (0 < s.elapsed)

/-- Claim C1: the tick handler at `elapsed = 0` should be a no-op, but the
code performs an unguarded `u16` decrement: from `elapsed = 0` (with the
initial `set = 180`) one `TIM2` firing wraps `elapsed` to `65535`. -/
theorem tim2_at_zero_not_noop :
    (TIM2 { elapsed := 0, set := 180 }).elapsed = 65535 := by
  decide

/-- Claim C10: modelling the `u16` subtraction as wrapping arithmetic,
executing `TIM2` in any state with `elapsed = 0` yields `elapsed = 65535`,
after which the render loop's `elapsed > 0` condition holds again. -/
theorem tim2_at_zero_wraps (t : Nat) :
    (TIM2 { elapsed := 0, set := t }).elapsed = 65535 ∧
      renderLoopCondition (TIM2 { elapsed := 0, set := t }) = true := by
  simp [TIM2, renderLoopCondition, U16_MOD]

/-- Claim C2: `time_digits 3661` returns `(1, 61, 1)`, not `(1, 1, 1)`:
the code computes `minutes = time / 60` without reducing modulo 60. -/
theorem time_digits_3661 : time_digits 3661 = (1, 61, 1) := by
  decide

/-- Iterating `TIM2` never touches `set`, and while `elapsed` stays
positive each firing subtracts exactly one. -/
theorem tim2_iterate (t : Nat) : ∀ (e T : Nat), t ≤ e → e < U16_MOD →
    TIM2^[t] { elapsed := e, set := T } = { elapsed := e - t, set := T } := by
  induction t with
  | zero => intro e T _ _; simp
  | succ n ih =>
    intro e T ht he
    have hmod : (e + 65535) % U16_MOD = e - 1 := by
      simp only [U16_MOD] at he ⊢
      omega
    have hstep : TIM2 { elapsed := e, set := T } = { elapsed := e - 1, set := T } := by
      rw [TIM2, hmod]
    rw [Function.iterate_succ_apply, hstep, ih (e - 1) T (by omega) (by omega)]
    have harith : e - 1 - n = e - (n + 1) := by omega
    rw [harith]

/-- Claim C8: for every `t ≤ target`, applying the `TIM2` tick handler
`t` times starting from `elapsed = target` (no other event source
firing) yields `elapsed = target - t`. -/
theorem tim2_countdown (target t : Nat) (ht : t ≤ target)
    (hrep : target < U16_MOD) :
    (TIM2^[t] { elapsed := target, set := target }).elapsed = target - t := by
  rw [tim2_iterate t target target ht hrep]

/-- Witness for `tim2_countdown`: 2 ticks from `elapsed = target = 180`
leave 178 seconds. -/
theorem tim2_countdown_witness :
    (TIM2^[2] { elapsed := 180, set := 180 }).elapsed = 180 - 2 :=
  tim2_countdown 180 2 (by decide) (by decide)

/-- Claim C4: the `EXTI0` reset handler is unconditional and idempotent:
from any state with `elapsed ≤ set`, one firing sets `elapsed` to the
current `set`, a second firing changes nothing, and firing right after a
`TIM3` sampler update picks up the sampler's new `set` value, not an
older one. -/
theorem exti0_reset (s : CountdownState) (_h : s.elapsed ≤ s.set) :
    (EXTI0 s).elapsed = s.set ∧ EXTI0 (EXTI0 s) = EXTI0 s ∧
      ∀ sample : Nat,
        (EXTI0 (TIM3 sample s)).elapsed = (TIM3 sample s).set := by
  refine ⟨rfl, rfl, fun sample => rfl⟩

/-- Witness for `exti0_reset`: the mid-countdown state
`elapsed = 90, set = 180`. -/
theorem exti0_reset_witness :
    (EXTI0 { elapsed := 90, set := 180 }).elapsed = 180 ∧
      EXTI0 (EXTI0 { elapsed := 90, set := 180 }) =
        EXTI0 { elapsed := 90, set := 180 } ∧
      ∀ sample : Nat,
        (EXTI0 (TIM3 sample { elapsed := 90, set := 180 })).elapsed =
          (TIM3 sample { elapsed := 90, set := 180 }).set :=
  exti0_reset { elapsed := 90, set := 180 } (by decide)

/-- Claim C9: every `TIM3` sampler firing updates `set` unconditionally
to the quantized sample and leaves `elapsed` unchanged. -/
theorem tim3_updates_set_only (sample : Nat) (s : CountdownState) :
    (TIM3 sample s).elapsed = s.elapsed ∧
      (TIM3 sample s).set = ((sample >>> 1) * 60) % U16_MOD := by
  exact ⟨rfl, rfl⟩

/-- Claim C5: the quantizer `(sample >> 1) * 60` realized by `TIM3` is
monotone non-decreasing on the 6-bit domain `[0, 63]`, its image there
is exactly the 32-level ladder `{60 * k : k ≤ 31}`, and raw sample 63
yields `set = 1860`. -/
theorem tim3_quantizer (s : CountdownState) :
    (∀ r1 r2 : Nat, r1 ≤ r2 → r2 ≤ 63 →
        (TIM3 r1 s).set ≤ (TIM3 r2 s).set) ∧
      (∀ r : Nat, r ≤ 63 → ∃ k ≤ 31, (TIM3 r s).set = 60 * k) ∧
      (∀ k : Nat, k ≤ 31 → ∃ r ≤ 63, (TIM3 r s).set = 60 * k) ∧
      (TIM3 63 s).set = 1860 := by
  have hq : ∀ r : Nat, (TIM3 r s).set = r / 2 * 60 % U16_MOD := by
    intro r
    simp [TIM3, Nat.shiftRight_eq_div_pow]
  refine ⟨?_, ?_, ?_, ?_⟩
  · intro r1 r2 h12 h2
    rw [hq r1, hq r2]
    have hm1 : r1 / 2 * 60 % U16_MOD = r1 / 2 * 60 :=
      Nat.mod_eq_of_lt (by simp only [U16_MOD]; omega)
    have hm2 : r2 / 2 * 60 % U16_MOD = r2 / 2 * 60 :=
      Nat.mod_eq_of_lt (by simp only [U16_MOD]; omega)
    rw [hm1, hm2]
    omega
  · intro r hr
    refine ⟨r / 2, by omega, ?_⟩
    rw [hq r]
    simp only [U16_MOD]
    omega
  · intro k hk
    refine ⟨2 * k, by omega, ?_⟩
    rw [hq (2 * k)]
    simp only [U16_MOD]
    omega
  · rw [hq 63]
    decide

/-- Witness for `tim3_quantizer`: at the state `elapsed = 0, set = 0`,
sample 3 maps below sample 5, sample 63 is on the ladder, level 31 is
hit by sample 62, and sample 63 yields 1860. -/
theorem tim3_quantizer_witness :
    (TIM3 3 { elapsed := 0, set := 0 }).set ≤
        (TIM3 5 { elapsed := 0, set := 0 }).set ∧
      (∃ k ≤ 31, (TIM3 63 { elapsed := 0, set := 0 }).set = 60 * k) ∧
      (∃ r ≤ 63, (TIM3 r { elapsed := 0, set := 0 }).set = 60 * 31) ∧
      (TIM3 63 { elapsed := 0, set := 0 }).set = 1860 :=
  ⟨(tim3_quantizer { elapsed := 0, set := 0 }).1 3 5 (by decide) (by decide),
    (tim3_quantizer { elapsed := 0, set := 0 }).2.1 63 (by decide),
    (tim3_quantizer { elapsed := 0, set := 0 }).2.2.1 31 (by decide),
    (tim3_quantizer { elapsed := 0, set := 0 }).2.2.2⟩

/-- An interrupt firing: one of the three handlers, with the raw ADC
sample attached to a `TIM3` firing. -/
inductive IrqEvent
  | tick
  | reset
  | sample (raw : Nat)
  deriving Repr, DecidableEq

/-- Apply one interrupt handler to the shared state. -/
def applyEvent (s : CountdownState) : IrqEvent → CountdownState
  | IrqEvent.tick => TIM2 s
  | IrqEvent.reset => EXTI0 s
  | IrqEvent.sample raw => TIM3 raw s

/-- All shared-state values that occur while a list of interrupts fires
one after the other, the initial state included. -/
def traceStates (s : CountdownState) : List IrqEvent → List CountdownState
  | [] => [s]
  | e :: es => s :: traceStates (applyEvent s e) es

/-- The snapshot the render loop obtains, `main.rs` lines 198-199:
`ELAPSED` and `SET` are read in TWO separate `free(|cs| ...)` critical
sections, so interrupts may fire between the two reads.  The pair read
is `elapsed` from the state before the gap and `set` from the state
after the interrupts in the gap. -/
def renderSnapshot (s : CountdownState) (between : List IrqEvent) :
    Nat × Nat :=
  (s.elapsed, (between.foldl applyEvent s).set)

/-- Claim C3 is false on the code: from `elapsed = 90, set = 180`, a
reset followed by a sampler firing (raw sample 2) between the two reads
makes the render loop observe the torn pair `(90, 60)`, which matches no
state that actually occurred. -/
theorem torn_snapshot :
    renderSnapshot { elapsed := 90, set := 180 }
        [IrqEvent.reset, IrqEvent.sample 2] = (90, 60) ∧
      (traceStates { elapsed := 90, set := 180 }
          [IrqEvent.reset, IrqEvent.sample 2]).all
        (fun st => (st.elapsed, st.set) != (90, 60)) = true := by
  decide

/-- One foreground action of `main`'s outer loop: a display write (the
two rendered values), an LED toggle, or a busy delay in milliseconds. -/
inductive Action
  | writeFrame (elapsed set : Nat)
  | toggle
  | delayMs (ms : Nat)
  deriving Repr, DecidableEq

/-- The finale path of `main`'s outer loop, `main.rs` lines 217-241:
write one frame with `zero = 0` and the current `set`, then
`for _ in 0..11 { toggle; delay 100 ms }`, then a 3000 ms delay, then
one final toggle. -/
def finaleActions (set : Nat) : List Action :=
  Action.writeFrame 0 set ::
    ((List.replicate 11 [Action.toggle, Action.delayMs 100]).flatten ++
      [Action.delayMs 3000, Action.toggle])

/-- The first statement of `main`'s outer loop, `main.rs` line 190:
`ELAPSED.borrow(cs).set(SET.borrow(cs).get())`. -/
def loopReload (s : CountdownState) : CountdownState :=
  { s with elapsed := s.set }

/-- LED state after running a list of actions, starting from `led`. -/
def ledAfter (led : Bool) : List Action → Bool
  | [] => led
  | Action.toggle :: rest => ledAfter (!led) rest
  | _ :: rest => ledAfter led rest

/-- Number of LED toggles in a list of actions. -/
def countToggles : List Action → Nat
  | [] => 0
  | Action.toggle :: rest => countToggles rest + 1
  | _ :: rest => countToggles rest

/-- The finale's blink phase: the final frame write and the eleven
toggle/100 ms pairs (everything before the 3000 ms hold). -/
def blinkPhase (set : Nat) : List Action :=
  (finaleActions set).take 23

/-- The finale's hold phase: the 3000 ms hold and the final toggle. -/
def holdPhase (set : Nat) : List Action :=
  (finaleActions set).drop 23

/-- Claim C6: when the render loop exits at `elapsed = 0`, the finale
first writes a frame showing `elapsed = 0` and the current `set`, then
toggles the LED exactly 11 times (an odd count, each toggle followed by
a 100 ms delay, so the LED ends ON from an initial OFF), holds 3000 ms,
toggles the LED OFF, and the outer loop then reloads
`elapsed := set`. -/
theorem finale_sequence (t : Nat) :
    (finaleActions t).head? = some (Action.writeFrame 0 t) ∧
      countToggles (blinkPhase t) = 11 ∧
      ledAfter false (blinkPhase t) = true ∧
      (∀ i : Nat, i < 11 →
        (finaleActions t).get? (1 + 2 * i) = some Action.toggle ∧
          (finaleActions t).get? (2 + 2 * i) = some (Action.delayMs 100)) ∧
      holdPhase t = [Action.delayMs 3000, Action.toggle] ∧
      ledAfter false (finaleActions t) = false ∧
      (loopReload { elapsed := 0, set := t }).elapsed = t := by
  refine ⟨rfl, rfl, rfl, ?_, rfl, rfl, rfl⟩
  intro i hi
  interval_cases i <;> exact ⟨rfl, rfl⟩

/-- Witness for `finale_sequence`: the scenario `set = 180`, checking
the head frame and the first toggle/delay pair. -/
theorem finale_sequence_witness :
    (finaleActions 180).head? = some (Action.writeFrame 0 180) ∧
      ((finaleActions 180).get? (1 + 2 * 0) = some Action.toggle ∧
        (finaleActions 180).get? (2 + 2 * 0) = some (Action.delayMs 100)) :=
  ⟨(finale_sequence 180).1, (finale_sequence 180).2.2.2.1 0 (by decide)⟩

/-- The Rust format specifier for a zero-padded two-digit field, applied
to a `u8` value: one digit is left-padded with a zero; values of three
digits (only reachable for a `u8` above 99) print all their digits. -/
def fmt02 (n : Nat) : String :=
  if n < 10 then String.mk ['0', Nat.digitChar n]
  else if n < 100 then String.mk [Nat.digitChar (n / 10), Nat.digitChar (n % 10)]
  else String.mk [Nat.digitChar (n / 100), Nat.digitChar (n / 10 % 10),
    Nat.digitChar (n % 10)]

/-- `format_time` from `main.rs` lines 335-342: four spaces, the elapsed
`hh:mm:ss`, forty spaces, the set `hh:mm:ss`, four spaces, each field
formatted with the zero-padded two-digit specifier. -/
def format_time (elapsed set : Nat) : String :=
  "    " ++ fmt02 (time_digits elapsed).1 ++ ":" ++
    fmt02 (time_digits elapsed).2.1 ++ ":" ++
    fmt02 (time_digits elapsed).2.2 ++
    String.mk (List.replicate 40 ' ') ++
    fmt02 (time_digits set).1 ++ ":" ++
    fmt02 (time_digits set).2.1 ++ ":" ++
    fmt02 (time_digits set).2.2 ++ "    "

/-- A two-digit field value renders as exactly two characters. -/
theorem fmt02_length (n : Nat) (h : n < 100) : (fmt02 n).length = 2 := by
  rw [fmt02]
  by_cases h10 : n < 10
  · rw [if_pos h10]
    rfl
  · rw [if_neg h10, if_pos h]
    rfl

/-- Claim C7 is false as stated: at `elapsed = 6000` the minutes field
is `6000 / 60 = 100`, three characters, and the frame is 65 characters
long, not 64.  (`elapsed = 6000` is reached by counting down after the
`TIM2` underflow wrap to 65535.) -/
theorem format_time_6000 : (format_time 6000 0).length = 65 := by
  decide

/-- Claim C7, amended: whenever both minutes fields are two-digit values
(which holds in every state the program reaches without the underflow
wrap, since `set ≤ 1860` gives minutes at most 31), the frame produced
by `format_time` is exactly 64 characters long. -/
theorem format_time_length (elapsed set : Nat)
    (he : elapsed < U16_MOD) (hs : set < U16_MOD)
    (hem : elapsed / 60 % U8_MOD < 100) (hsm : set / 60 % U8_MOD < 100) :
    (format_time elapsed set).length = 64 := by
  have hsec : ∀ x : Nat, x % 60 % U8_MOD < 100 := by
    intro x
    have h60 : x % 60 < 60 := Nat.mod_lt _ (by norm_num)
    have hle : x % 60 % U8_MOD ≤ x % 60 := Nat.mod_le _ _
    exact lt_of_le_of_lt hle (lt_trans h60 (by norm_num))
  have hhr : ∀ x : Nat, x < U16_MOD → x / 3600 % U8_MOD < 100 := by
    intro x hx
    simp only [U16_MOD] at hx
    have hq : x / 3600 < 19 := Nat.div_lt_of_lt_mul (by omega)
    have hle : x / 3600 % U8_MOD ≤ x / 3600 := Nat.mod_le _ _
    exact lt_of_le_of_lt hle (lt_trans hq (by norm_num))
  have h1 := fmt02_length _ (hhr elapsed he)
  have h2 := fmt02_length _ hem
  have h3 := fmt02_length _ (hsec elapsed)
  have h4 := fmt02_length _ (hhr set hs)
  have h5 := fmt02_length _ hsm
  have h6 := fmt02_length _ (hsec set)
  simp only [format_time, time_digits, String.length_append, h1, h2, h3, h4, h5, h6]
  decide

/-- Witness for `format_time_length`: the initial state
`elapsed = set = 180` renders as a 64-character frame. -/
theorem format_time_length_witness : (format_time 180 180).length = 64 :=
  format_time_length 180 180 (by decide) (by decide) (by decide) (by decide)

end TimeCounter
